import Mathlib

/-!
Verification of the macKinect-native capture and distribution engine.

The definitions below are a shallow embedding of the C++ sources:
native driver calls are modelled as boolean/numeric oracles supplied as
parameters, device objects become explicit state records, and driver
callbacks become state-transition functions.  Machine integers are
modelled as Nat/Int (none of the modelled paths can overflow their C++
types on the inputs considered).
-/

namespace MacKinect

/-- Stream selector, from `enum class StreamKind` in backend.h. -/
inductive StreamKind where
  | kRgb
  | kIr
  | kDepth
deriving DecidableEq, Repr

/-- Frame payload, from `struct FrameData` in backend.h.  Buffers are lists
of byte / 16-bit sample values; an empty list models an empty vector. -/
structure FrameData where
  rgb : List Nat := []
  depth : List Nat := []
  ir : List Nat := []
  width : Int := 0
  height : Int := 0
  timestamp : Nat := 0
deriving DecidableEq, Repr

/-- Probe outcome, from `struct ProbeResult` in backend.h. -/
structure ProbeResult where
  available : Bool
  detail : String
deriving DecidableEq, Repr

/-- Preview outcome, from `struct PreviewResult` in backend.h. -/
structure PreviewResult where
  success : Bool := false
  detail : String := ""
  color_frames : Nat := 0
  depth_frames : Nat := 0
deriving DecidableEq, Repr

/-- Device listing entry, from `struct DeviceInfo` in backend.h
(the generation tag is fixed per backend and omitted). -/
structure DeviceInfo where
  serial : String
  name : String
deriving DecidableEq, Repr

/-- `IsSyntheticIndexSerial` from freenect_v1_backend.cpp:
`serial.rfind("DeviceIndex-", 0) == 0`. -/
def IsSyntheticIndexSerial (serial : String) : Bool :=
  serial.startsWith "DeviceIndex-"

/-! ## FrameDistributionQueue (KinectCameraDALPlugin.cpp, ProducerLoop)

The CMSimpleQueue of sample buffers is modelled as a list whose head is
the oldest entry.  `ProducerLoop` pushes one sample per tick: while the
queue count is at least `kQueueCapacity` it dequeues (and releases) the
oldest entry, then enqueues the new sample. -/

/-- `kQueueCapacity` from KinectCameraDALPlugin.cpp. -/
def kQueueCapacity : Nat := 8

/-- The eviction loop of `ProducerLoop`:
`while (CMSimpleQueueGetCount(q) >= kQueueCapacity) dequeue-and-release`.
Returns the remaining queue and the number of evicted entries. -/
def evictWhileFull (q : List α) : List α × Nat :=
  match q with
  | [] => ([], 0)
  | x :: xs =>
    if kQueueCapacity ≤ (x :: xs).length then
      let p := evictWhileFull xs
      (p.1, p.2 + 1)
    else
      (x :: xs, 0)

/-- One push of `ProducerLoop`: evict while at (or beyond) capacity, then
enqueue the new sample at the back.  Returns the new queue and the number
of evictions performed. -/
def queuePush (q : List α) (sample : α) : List α × Nat :=
  let p := evictWhileFull q
  (p.1 ++ [sample], p.2)

/-! ## FreenectV1Device state machine (freenect_v1_backend.cpp)

Device state is the set of member fields of `FreenectV1Device` that the
lifecycle functions read and write.  The native libfreenect calls made by
`start`/`ApplyVideoMode`/`setAudioEnabled` are modelled by a record of
boolean success oracles, and the native stop/start calls issued are
recorded in an ordered trace for the teardown-order claims. -/

/-- Success oracles for the native libfreenect calls used by the
generation-1 start path. -/
structure V1Native where
  /-- `freenect_find_depth_mode(MEDIUM, DEPTH_MM).is_valid` -/
  depthModeValid : Bool := true
  /-- `freenect_set_depth_mode(dev, mode) >= 0` -/
  setDepthModeOk : Bool := true
  /-- `freenect_find_video_mode(MEDIUM, fmt).is_valid` per format -/
  videoModeValid : StreamKind → Bool := fun _ => true
  /-- `freenect_set_video_mode(dev, mode) >= 0` -/
  setVideoModeOk : Bool := true
  /-- `freenect_start_video(dev) >= 0` -/
  startVideoOk : Bool := true
  /-- `freenect_start_depth(dev) >= 0` -/
  startDepthOk : Bool := true
  /-- `freenect_start_audio(dev) == 0` -/
  startAudioOk : Bool := true

/-- Mutable state of a `FreenectV1Device`. -/
structure V1DevState where
  /-- `dev_ != nullptr` -/
  devOpen : Bool := false
  running : Bool := false
  depthStarted : Bool := false
  videoStarted : Bool := false
  audioStarted : Bool := false
  audioEnabled : Bool := false
  /-- constructor argument `audio_supported_` -/
  audioSupported : Bool := false
  requestedStream : StreamKind := .kRgb
  activeStream : StreamKind := .kRgb
deriving DecidableEq, Repr

/-- Native calls traced during stop/teardown, used to check ordering. -/
inductive NativeCall where
  | stopAudio
  | stopVideo
  | stopDepth
deriving DecidableEq, Repr

/-- `FreenectV1Device::ApplyVideoMode`. Returns (result, new state). -/
def applyVideoMode (env : V1Native) (st : V1DevState) : Bool × V1DevState :=
  if !st.devOpen then
    (false, st)
  else
    let fmt := if st.requestedStream = .kIr then StreamKind.kIr else StreamKind.kRgb
    if !env.videoModeValid fmt then
      (false, st)
    else
      let st1 := if st.videoStarted then { st with videoStarted := false } else st
      if !env.setVideoModeOk then
        (false, st1)
      else if !env.startVideoOk then
        (false, st1)
      else
        (true, { st1 with videoStarted := true, activeStream := st1.requestedStream })

/-- `FreenectV1Device::setAudioEnabled`. Returns (result, new state). -/
def v1SetAudioEnabled (env : V1Native) (st : V1DevState) (enabled : Bool) :
    Bool × V1DevState :=
  if !st.audioSupported then
    (false, { st with audioEnabled := false })
  else
    let st1 := { st with audioEnabled := enabled }
    if !st1.devOpen || !st1.running then
      (false, st1)
    else if enabled then
      if !st1.audioStarted && env.startAudioOk then
        (true, { st1 with audioStarted := true })
      else
        (st1.audioStarted, st1)
    else
      if st1.audioStarted then
        (false, { st1 with audioStarted := false })
      else
        (false, st1)

/-- `FreenectV1Device::start`. Returns (result, new state). -/
def v1Start (env : V1Native) (st : V1DevState) : Bool × V1DevState :=
  if !st.devOpen || st.running then
    (st.devOpen, st)
  else if !env.depthModeValid || !env.setDepthModeOk then
    (false, st)
  else
    match applyVideoMode env st with
    | (false, st1) => (false, st1)
    | (true, st1) =>
      if !env.startDepthOk then
        (false, st1)
      else
        let st2 := { st1 with depthStarted := true }
        if !st2.videoStarted then
          if !env.startVideoOk then
            (false, { st2 with depthStarted := false })
          else
            let st3 := { st2 with videoStarted := true, running := true }
            if st3.audioEnabled then
              (true, (v1SetAudioEnabled env st3 true).2)
            else
              (true, st3)
        else
          let st3 := { st2 with running := true }
          if st3.audioEnabled then
            (true, (v1SetAudioEnabled env st3 true).2)
          else
            (true, st3)

/-- `FreenectV1Device::stop`. Returns (result, new state, ordered trace of
native stop calls issued). -/
def v1Stop (st : V1DevState) : Bool × V1DevState × List NativeCall :=
  if !st.devOpen then
    (false, st, [])
  else if !st.running then
    (true, st, [])
  else
    let audioCalls := if st.audioStarted then [NativeCall.stopAudio] else []
    let videoCalls := if st.videoStarted then [NativeCall.stopVideo] else []
    let depthCalls := if st.depthStarted then [NativeCall.stopDepth] else []
    (true,
     { st with audioStarted := false, videoStarted := false,
               depthStarted := false, running := false },
     audioCalls ++ videoCalls ++ depthCalls)

/-! ## FreenectV2Device stop (freenect_v2_backend.cpp) -/

/-- Mutable state of a `FreenectV2Device` relevant to stop/update. -/
structure V2DevState where
  /-- `dev_ != nullptr` -/
  devOpen : Bool := false
  running : Bool := false
  frame : FrameData := {}
  hasNewFrame : Bool := false
  selectedStream : StreamKind := .kRgb
deriving DecidableEq, Repr

/-- `FreenectV2Device::stop`. Returns (result, new state, whether a native
`dev_->stop()` call was issued). -/
def v2Stop (st : V2DevState) : Bool × V2DevState × Bool :=
  if !st.devOpen then
    (false, st, false)
  else if st.running then
    (true, { st with running := false }, true)
  else
    (true, st, false)

/-! ## Enumeration retry policy (freenect_v1_backend.cpp)

`freenect_num_devices` is modelled by an oracle `f : Nat → Int` giving the
result of the k-th call made inside one `EnumerateCountWithRetries`
invocation.  Sleeps are not timed; the functions return how many sleeps
were performed alongside the result. -/

/-- The retry loop body of `FreenectV1Backend::EnumerateCountWithRetries`:
`attempt` is the index of the current attempt, the second argument the
number of attempts remaining (so the first call passes the clamped attempt
count).  Returns (count, sleeps performed). -/
def enumerateLoop (f : Nat → Int) (attempt : Nat) : Nat → Int × Nat
  | 0 => (0, 0)
  | remaining + 1 =>
    if f attempt ≠ 0 then
      (f attempt, 0)
    else
      match remaining with
      | 0 => (0, 0)
      | r + 1 =>
        let p := enumerateLoop f (attempt + 1) (r + 1)
        (p.1, p.2 + 1)

/-- `FreenectV1Backend::EnumerateCountWithRetries(attempts, delay_ms)`.
`ctxOk` models `ctx_ != nullptr`.  The attempt count is clamped below by 1
as in the source (`std::max(1, attempts)`); the delay only affects timing
and is irrelevant to the returned pair. -/
def EnumerateCountWithRetries (ctxOk : Bool) (f : Nat → Int)
    (attempts : Int) (delay_ms : Int) : Int × Nat :=
  if !ctxOk then (-1, 0)
  else
    let _ := delay_ms
    enumerateLoop f 0 (max 1 attempts).toNat

/-- `FreenectV1Backend::probe`.  `hasAudioFirmware` models
`has_audio_firmware_`. -/
def v1Probe (ctxOk : Bool) (hasAudioFirmware : Bool) (f : Nat → Int) :
    ProbeResult :=
  if !ctxOk then
    { available := false, detail := "libfreenect initialization failed." }
  else
    let count := (EnumerateCountWithRetries ctxOk f 4 80).1
    if count < 0 then
      { available := false, detail := "Kinect v1 enumeration failed." }
    else if count = 0 then
      if hasAudioFirmware then
        { available := true,
          detail := "Backend ready. No Kinect v1 devices are currently attached." }
      else
        { available := true,
          detail := "Backend ready (camera/depth only). No Kinect v1 devices are currently attached." }
    else if !hasAudioFirmware then
      { available := true,
        detail := toString count ++
          " Kinect v1 device(s) detected. Audio disabled because audios.bin firmware was not found." }
    else
      { available := true, detail := toString count ++ " Kinect v1 device(s) detected." }

/-- `FreenectV2Backend::probe`.  `enumCount` is the result of
`ctx_.enumerateDevices()`. -/
def v2Probe (enumCount : Int) : ProbeResult :=
  if enumCount ≤ 0 then
    { available := false, detail := "No Kinect v2 devices found." }
  else
    { available := true, detail := toString enumCount ++ " Kinect v2 device(s) detected." }

/-- Builds the `DeviceInfo` list from one successful
`freenect_list_device_attributes` result: each entry carries the reported
camera serial or, when that is null, the synthesized positional
identifier `DeviceIndex-<index>`. -/
def buildDeviceInfos (attrs : List (Option String)) : List DeviceInfo :=
  attrs.enum.map fun p =>
    { serial := p.2.getD ("DeviceIndex-" ++ toString p.1), name := "Kinect v1" }

/-- The attribute-listing retry loop of `FreenectV1Backend::listDevices`:
`attrs k` is the (possibly empty) attribute list returned by the k-th
`freenect_list_device_attributes` call; an empty list models
`count <= 0 || attrs == nullptr`.  Returns the successful listing (if any)
and the number of sleeps performed. -/
def listDevicesLoop (attrs : Nat → List (Option String)) (attempt : Nat) :
    Nat → Option (List DeviceInfo) × Nat
  | 0 => (none, 0)
  | remaining + 1 =>
    if attrs attempt ≠ [] then
      (some (buildDeviceInfos (attrs attempt)), 0)
    else
      match remaining with
      | 0 => (none, 0)
      | r + 1 =>
        let p := listDevicesLoop attrs (attempt + 1) (r + 1)
        (p.1, p.2 + 1)

/-- `FreenectV1Backend::listDevices`.  `numdev` is the oracle for the
`freenect_num_devices` calls of the index-only fallback.  Returns the
device list and the total number of sleeps performed. -/
def v1ListDevices (ctxOk : Bool) (attrs : Nat → List (Option String))
    (numdev : Nat → Int) : List DeviceInfo × Nat :=
  if !ctxOk then ([], 0)
  else
    match listDevicesLoop attrs 0 4 with
    | (some devs, sleeps) => (devs, sleeps)
    | (none, sleeps) =>
      let e := EnumerateCountWithRetries ctxOk numdev 4 80
      let fallbackCount := (max 0 e.1).toNat
      ((List.range fallbackCount).map fun i =>
         { serial := "DeviceIndex-" ++ toString i, name := "Kinect v1" },
       sleeps + e.2)

/-! ## openDevice (FreenectV1Backend::openDevice / FreenectV1Device::open)

The environment fixes, for the duration of one `openDevice` call, the
results of the native open and enumeration calls (each native call is
assumed to answer the same way every time it is made during the call). -/

/-- The physical unit actually opened: by exact camera serial or by
enumeration position. -/
inductive OpenedUnit where
  | bySerial (serial : String)
  | byIndex (index : Nat)
deriving DecidableEq, Repr

/-- Native-call environment for `openDevice`. -/
structure V1OpenEnv where
  /-- `freenect_open_device_by_camera_serial` succeeds for this serial -/
  openBySerial : String → Bool
  /-- `freenect_open_device` succeeds at this index -/
  openByIndex : Nat → Bool
  /-- result of every `freenect_num_devices` call -/
  numDevices : Int
  /-- result of every `freenect_list_device_attributes` call -/
  attrs : List (Option String)

/-- `FreenectV1Device::open` for a device constructed with the given index
and serial (index -1 encodes the serial-only direct attempt).  First tries
the exact serial when it is non-empty and not synthetic; if no device was
obtained and the index is non-negative, falls back to opening by
enumeration position. -/
def v1DeviceOpen (env : V1OpenEnv) (index : Int) (serial : String) :
    Option OpenedUnit :=
  let bySer :=
    if serial ≠ "" && !IsSyntheticIndexSerial serial then
      if env.openBySerial serial then some (OpenedUnit.bySerial serial) else none
    else none
  match bySer with
  | some u => some u
  | none =>
    if 0 ≤ index then
      if env.openByIndex index.toNat then some (OpenedUnit.byIndex index.toNat)
      else none
    else none

/-- Parses the digits following `DeviceIndex-`, as `std::stoi` does on the
substring (leading digits; failure when there are none). -/
def parseIndexSuffix (s : String) : Option Nat :=
  let digits := (s.drop 12).takeWhile Char.isDigit
  if digits = "" then none
  else some (digits.foldl (fun a c => a * 10 + (c.toNat - 48)) 0)

/-- One attempt of the outer retry loop of `FreenectV1Backend::openDevice`:
direct exact-serial attempt, then candidate indices (the parsed synthetic
index, or the index whose listed serial matches, followed by every
enumerated index not already tried) each opened via `FreenectV1Device::open`. -/
def v1OpenDeviceAttempt (env : V1OpenEnv) (serial : String) :
    Option OpenedUnit :=
  let direct :=
    if serial ≠ "" && !IsSyntheticIndexSerial serial then
      v1DeviceOpen env (-1) serial
    else none
  match direct with
  | some u => some u
  | none =>
    let count := (max 0 (EnumerateCountWithRetries true (fun _ => env.numDevices) 2 80).1).toNat
    let base : List Nat :=
      if IsSyntheticIndexSerial serial then
        match parseIndexSuffix serial with
        | some parsed => [parsed]
        | none => []
      else if serial ≠ "" then
        let devices := (v1ListDevices true (fun _ => env.attrs) (fun _ => env.numDevices)).1
        match devices.findIdx? (fun d => d.serial = serial) with
        | some idx => [idx]
        | none => []
      else []
    let candidates := base ++ (List.range count).filter (fun i => ¬ i ∈ base)
    candidates.findSome? fun i => v1DeviceOpen env (Int.ofNat i) serial

/-- The outer retry loop of `FreenectV1Backend::openDevice`
(`kMaxRetries = 6` attempts, sleeping 250 ms between attempts). -/
def v1OpenDeviceGo (env : V1OpenEnv) (serial : String) :
    Nat → Option OpenedUnit
  | 0 => none
  | n + 1 =>
    match v1OpenDeviceAttempt env serial with
    | some u => some u
    | none => v1OpenDeviceGo env serial n

/-- `FreenectV1Backend::openDevice`.  `ctxOk` models `ctx_ != nullptr`. -/
def v1OpenDevice (env : V1OpenEnv) (ctxOk : Bool) (serial : String) :
    Option OpenedUnit :=
  if !ctxOk then none
  else v1OpenDeviceGo env serial 6

/-! ## FrameMailbox of FreenectV1Device (frame_mutex_ / frame_ / has_new_frame_)

The guarded slot is the pair of `frame_` and `has_new_frame_`.  The driver
callbacks `OnDepthFrame` / `OnVideoFrame` are the writers; `getFrame` is
the reader. -/

/-- `kWidth` from freenect_v1_backend.cpp. -/
def kWidth : Int := 640

/-- `kHeight` from freenect_v1_backend.cpp. -/
def kHeight : Int := 480

/-- The mailbox embedded in `FreenectV1Device`: the `frame_` slot plus the
`has_new_frame_` flag. -/
structure Mailbox where
  frame : FrameData := {}
  fresh : Bool := false
deriving DecidableEq, Repr

/-- `FreenectV1Device::OnDepthFrame`: copies the depth buffer into the
slot, stamps width/height/timestamp and marks the slot fresh.  The rgb and
ir buffers of the slot are not touched. -/
def OnDepthFrame (data : List Nat) (ts : Nat) (mb : Mailbox) : Mailbox :=
  { frame := { mb.frame with
                 width := kWidth, height := kHeight,
                 timestamp := ts, depth := data },
    fresh := true }

/-- `FreenectV1Device::OnVideoFrame`: stamps width/height/timestamp, then
copies the video buffer into `ir` when the active stream is infrared and
into `rgb` otherwise, and marks the slot fresh.  The depth buffer of the
slot is not touched. -/
def OnVideoFrame (active : StreamKind) (data : List Nat) (ts : Nat)
    (mb : Mailbox) : Mailbox :=
  let f0 := { mb.frame with width := kWidth, height := kHeight, timestamp := ts }
  { frame :=
      if active = StreamKind.kIr then { f0 with ir := data }
      else { f0 with rgb := data },
    fresh := true }

/-- `FreenectV1Device::getFrame`: returns the slot when fresh and clears
the fresh flag, otherwise returns nothing. -/
def mailboxGetFrame (mb : Mailbox) : Option FrameData × Mailbox :=
  if !mb.fresh then (none, mb)
  else (some mb.frame, { mb with fresh := false })

/-- One callback write delivered to the mailbox: a depth callback or a
video callback (the latter tagged with the device's active stream at
callback time). -/
inductive WriteEv where
  | depthEv (data : List Nat) (ts : Nat)
  | videoEv (active : StreamKind) (data : List Nat) (ts : Nat)
deriving DecidableEq, Repr

/-- Applies one callback write to the mailbox. -/
def applyWrite (mb : Mailbox) : WriteEv → Mailbox
  | .depthEv d ts => OnDepthFrame d ts mb
  | .videoEv a d ts => OnVideoFrame a d ts mb

/-- Applies a sequence of callback writes, oldest first. -/
def applyWrites (mb : Mailbox) (es : List WriteEv) : Mailbox :=
  es.foldl applyWrite mb

/-! ## FreenectV2Device::update (freenect_v2_backend.cpp)

The converted per-stream data extracted from the native frame map is
modelled by one record per stream; an absent stream leaves the record at
its initial values (empty data, zero dimensions), exactly as the local
variables of `update` stay at their initializers. -/

/-- The extracted candidate buffer for one stream inside
`FreenectV2Device::update` (converted data, dimensions, timestamp). -/
structure V2Buf where
  data : List Nat := []
  w : Int := 0
  h : Int := 0
  ts : Nat := 0
deriving DecidableEq, Repr

/-- The guard shared by `assign_rgb` / `assign_depth` / `assign_ir`:
the assignment is performed only when the data is non-empty and both
dimensions are positive. -/
def bufReady (b : V2Buf) : Bool :=
  !(b.data = []) && decide (0 < b.w) && decide (0 < b.h)

/-- The per-stream buffer of the three extracted candidates. -/
def bufFor (rgb depth ir : V2Buf) : StreamKind → V2Buf
  | .kRgb => rgb
  | .kIr => ir
  | .kDepth => depth

/-- The body of `assign_rgb` / `assign_ir` / `assign_depth` on success:
moves the stream's data into the corresponding buffer of `next_frame` and
takes width, height and timestamp from the same stream. -/
def assignBuf (k : StreamKind) (b : V2Buf) (fr : FrameData) : FrameData :=
  match k with
  | .kRgb => { fr with rgb := b.data, width := b.w, height := b.h, timestamp := b.ts }
  | .kIr => { fr with ir := b.data, width := b.w, height := b.h, timestamp := b.ts }
  | .kDepth => { fr with depth := b.data, width := b.w, height := b.h, timestamp := b.ts }

/-- `FreenectV2Device::update`.  `waitOk` models the result of
`listener_.waitForNewFrame(frames, 1)`.  Tries the selected stream first,
then falls back to color, infrared, depth in that order; on success stores
the assembled frame in the slot and marks it fresh. -/
def v2Update (waitOk : Bool) (rgb depth ir : V2Buf) (st : V2DevState) :
    Bool × V2DevState :=
  if !st.running then (false, st)
  else if !waitOk then (false, st)
  else
    let attempt : StreamKind → Option FrameData := fun k =>
      if bufReady (bufFor rgb depth ir k) then
        some (assignBuf k (bufFor rgb depth ir k) {})
      else none
    let afterSelected := attempt st.selectedStream
    let assigned :=
      match afterSelected with
      | some fr => some fr
      | none =>
        match attempt .kRgb with
        | some fr => some fr
        | none =>
          match attempt .kIr with
          | some fr => some fr
          | none => attempt .kDepth
    match assigned with
    | some fr => (true, { st with frame := fr, hasNewFrame := true })
    | none => (false, st)

/-- The stream chosen by a successful `update`, as the specification
describes it: the selected stream when it produced usable data, otherwise
the first usable stream in the fixed order color, infrared, depth. -/
def v2Pick (sel : StreamKind) (rgb depth ir : V2Buf) : Option StreamKind :=
  if bufReady (bufFor rgb depth ir sel) then some sel
  else if bufReady rgb then some .kRgb
  else if bufReady ir then some .kIr
  else if bufReady depth then some .kDepth
  else none

/-- Number of non-empty buffers carried by a frame. -/
def nonemptyBufCount (fr : FrameData) : Nat :=
  (if fr.rgb ≠ [] then 1 else 0) + (if fr.ir ≠ [] then 1 else 0) +
    (if fr.depth ≠ [] then 1 else 0)

/-! ## preview (both backends)

The wall-clock polling loop is modelled by a finite list of loop
iterations.  For the generation-1 loop each entry is the `getFrame` result
of that iteration (the `update` result is ignored by the source); for the
generation-2 loop each entry is the `update` result paired with the
`getFrame` result attempted only on a successful update. -/

/-- The frame counting done inside both preview polling loops: a received
frame bumps the color counter when its rgb buffer is non-empty and the
depth counter when its depth buffer is non-empty. -/
def tallyFrames (frames : List (Option FrameData)) : Nat × Nat :=
  frames.foldl
    (fun acc p =>
      match p with
      | none => acc
      | some fr =>
        ((if fr.rgb ≠ [] then acc.1 + 1 else acc.1),
         (if fr.depth ≠ [] then acc.2 + 1 else acc.2)))
    (0, 0)

/-- `FreenectV1Backend::preview`.  `devices` is the `listDevices` result,
`openStartOk` whether `openDevice` and `start` both succeeded, `polls` the
per-iteration `getFrame` results. -/
def v1Preview (devices : List DeviceInfo) (openStartOk : Bool)
    (polls : List (Option FrameData)) : PreviewResult :=
  if devices = [] then
    { detail := "No Kinect v1 device available for preview." }
  else if !openStartOk then
    { detail := "Could not start Kinect v1 preview." }
  else
    let c := tallyFrames polls
    { success := 0 < c.1 + c.2,
      detail := if 0 < c.1 + c.2 then "Preview captured." else "No frames captured.",
      color_frames := c.1, depth_frames := c.2 }

/-- `FreenectV2Backend::preview`.  As for generation 1, except that each
iteration only attempts `getFrame` when `update` returned true. -/
def v2Preview (devices : List DeviceInfo) (openStartOk : Bool)
    (polls : List (Bool × Option FrameData)) : PreviewResult :=
  if devices = [] then
    { detail := "No Kinect v2 device available for preview." }
  else if !openStartOk then
    { detail := "Could not start Kinect v2 preview." }
  else
    let c := tallyFrames (polls.map fun p => if p.1 then p.2 else none)
    { success := 0 < c.1 + c.2,
      detail := if 0 < c.1 + c.2 then "Preview captured." else "No frames captured.",
      color_frames := c.1, depth_frames := c.2 }

/-! ## Point-cloud export (control_center_v1.cpp, SavePointCloudPly) -/

/-- `kFrameWidth` from control_center_v1.cpp. -/
def kFrameWidth : Nat := 640

/-- `kFrameHeight` from control_center_v1.cpp. -/
def kFrameHeight : Nat := 480

/-- `kFramePixels` from control_center_v1.cpp. -/
def kFramePixels : Nat := kFrameWidth * kFrameHeight

/-- One emitted point-list line of `SavePointCloudPly`: the flat sample
index `y * kFrameWidth + x` together with the world coordinates, the depth
value and the three color components written on the line. -/
structure PlyPoint where
  idx : Nat
  wx : Int
  wy : Int
  d : Nat
  r : Nat
  g : Nat
  b : Nat
deriving DecidableEq, Repr

/-- The header vertex count of `SavePointCloudPly`: the number of samples
of the depth buffer inside the fixed valid range [350, 6000]. -/
def plyVertexCount (depth : List Nat) : Nat :=
  (depth.filter fun d => decide (350 ≤ d) && decide (d ≤ 6000)).length

/-- The emission loop of `SavePointCloudPly` over y then x:
samples with `d < 350 || d > 6000` are skipped, every other sample yields
exactly one line.  `world x y d` models `freenect_camera_to_world`. -/
def plyPoints (world : Nat → Nat → Nat → Int × Int)
    (depth rgb : List Nat) : List PlyPoint :=
  (List.range kFrameHeight).flatMap fun y =>
    (List.range kFrameWidth).filterMap fun x =>
      let index := y * kFrameWidth + x
      let d := depth.getD index 0
      if d < 350 || 6000 < d then none
      else
        some { idx := index, wx := (world x y d).1, wy := (world x y d).2,
               d := d,
               r := rgb.getD (index * 3) 0, g := rgb.getD (index * 3 + 1) 0,
               b := rgb.getD (index * 3 + 2) 0 }

/-- `SavePointCloudPly` (content model): the declared header vertex count
and the emitted point lines. -/
def SavePointCloudPly (world : Nat → Nat → Nat → Int × Int)
    (depth rgb : List Nat) : Nat × List PlyPoint :=
  (plyVertexCount depth, plyPoints world depth rgb)

end MacKinect

namespace MacKinect

/-! ## Theorems -/

/-- Helper: the enumeration retry loop returns the first non-zero count
immediately, having slept once per failed attempt before it. -/
theorem enumerateLoop_first_nonzero (f : Nat → Int) :
    ∀ (n attempt r : Nat), n < r →
      (∀ k, k < n → f (attempt + k) = 0) → f (attempt + n) ≠ 0 →
      enumerateLoop f attempt r = (f (attempt + n), n) := by
  intro n
  induction n with
  | zero =>
    intro attempt r hr hzero hnz
    match r, hr with
    | rr + 1, _ =>
      simp only [Nat.add_zero] at hnz
      rw [enumerateLoop.eq_def]
      simp [hnz]
  | succ m ih =>
    intro attempt r hr hzero hnz
    match r, hr with
    | rr + 1, hr =>
      have h0 : f attempt = 0 := by
        have := hzero 0 (Nat.succ_pos m)
        simpa using this
      have hrr : m < rr := by omega
      match rr, hrr with
      | rrr + 1, hrr =>
        have hrec := ih (attempt + 1) (rrr + 1) hrr
          (fun k hk => by
            have := hzero (k + 1) (by omega)
            have harith : attempt + (k + 1) = attempt + 1 + k := by omega
            rwa [harith] at this)
          (by
            have harith : attempt + 1 + m = attempt + (m + 1) := by omega
            rw [harith]; exact hnz)
        rw [enumerateLoop.eq_def]
        simp only [h0, ne_eq, not_true_eq_false, ite_false, if_false]
        simp only [hrec]
        have harith : attempt + 1 + m = attempt + (m + 1) := by omega
        simp [harith]

/-- Helper: when every attempt reports zero the retry loop exhausts all
attempts, sleeping between consecutive attempts, and returns zero. -/
theorem enumerateLoop_all_zero (f : Nat → Int) :
    ∀ (r attempt : Nat), 1 ≤ r → (∀ k, k < r → f (attempt + k) = 0) →
      enumerateLoop f attempt r = (0, r - 1) := by
  intro r
  induction r with
  | zero => intro attempt h; omega
  | succ rr ih =>
    intro attempt _ hzero
    have h0 : f attempt = 0 := by
      have := hzero 0 (Nat.succ_pos rr)
      simpa using this
    match rr with
    | 0 =>
      rw [enumerateLoop.eq_def]
      simp [h0]
    | rrr + 1 =>
      have hrec := ih (attempt + 1) (by omega)
        (fun k hk => by
          have := hzero (k + 1) (by omega)
          have harith : attempt + (k + 1) = attempt + 1 + k := by omega
          rwa [harith] at this)
      rw [enumerateLoop.eq_def]
      simp only [h0, ne_eq, not_true_eq_false, ite_false, if_false]
      simp [hrec]

/-- C4: with the retry policy of attempts = 4 and delay = 80 ms, an
enumerator reporting zero devices on the first three attempts and two
devices on the fourth makes listDevices() return those two devices after
exactly three sleeps; in general a non-zero enumeration result is returned
immediately with exactly one prior sleep per failed attempt, and when
every attempt reports zero the retry exhausts all attempts and returns the
last (zero) result unchanged. -/
theorem capture_retry_policy (f : Nat → Int) (attempts delay : Int) (n : Nat)
    (hn : n < (max 1 attempts).toNat)
    (hzero : ∀ k, k < n → f k = 0) (hnz : f n ≠ 0)
    (g : Nat → Int) (hg : ∀ k, k < (max 1 attempts).toNat → g k = 0) :
    v1ListDevices true (fun k => if k = 3 then [some "A", some "B"] else [])
        (fun _ => 0) =
      ([{ serial := "A", name := "Kinect v1" },
        { serial := "B", name := "Kinect v1" }], 3) ∧
    EnumerateCountWithRetries true f attempts delay = (f n, n) ∧
    EnumerateCountWithRetries true g attempts delay =
      (0, (max 1 attempts).toNat - 1) := by
  refine ⟨by rfl, ?_, ?_⟩
  · have h := enumerateLoop_first_nonzero f n 0 (max 1 attempts).toNat hn
      (fun k hk => by simpa using hzero k hk)
      (by simpa using hnz)
    simpa [EnumerateCountWithRetries] using h
  · have h1 : 1 ≤ (max 1 attempts).toNat := by
      have : (1 : Int) ≤ max 1 attempts := le_max_left 1 attempts
      omega
    have h := enumerateLoop_all_zero g (max 1 attempts).toNat 0 h1
      (fun k hk => by simpa using hg k hk)
    simpa [EnumerateCountWithRetries] using h

/-- Witness for C4 at the scenario of the claim: zero devices on attempts
1..3, two devices on attempt 4. -/
theorem capture_retry_policy_witness :
    (3 < (max 1 (4 : Int)).toNat ∧
     EnumerateCountWithRetries true (fun k => if k = 3 then 2 else 0) 4 80 =
       ((fun k : Nat => if k = 3 then (2 : Int) else 0) 3, 3)) ∧
    EnumerateCountWithRetries true (fun _ => 0) 4 80 =
      (0, (max 1 (4 : Int)).toNat - 1) := by
  have h := capture_retry_policy (fun k => if k = 3 then 2 else 0) 4 80 3
    (by decide) (fun k hk => by interval_cases k <;> rfl) (by decide)
    (fun _ => 0) (fun k _ => rfl)
  exact ⟨⟨by decide, h.2.1⟩, h.2.2⟩

/-- C1 counterexample: the generation-2 probe reports the backend
unavailable when enumeration reports zero attached devices, contradicting
the claim that every generation's probe reports available == true in that
situation. -/
theorem v2Probe_zero_devices_unavailable :
    (v2Probe 0).available = false ∧ (v2Probe 0).detail = "No Kinect v2 devices found." :=
  ⟨rfl, rfl⟩

/-- C1 (amended): for generation 1, when the driver context initialized
successfully and enumeration reports zero devices, probe() reports the
backend available; for generation 2, probe() reports the backend
unavailable whenever enumeration reports zero or fewer devices. -/
theorem probe_zero_devices (hasFW : Bool) (f : Nat → Int)
    (hf : ∀ k, f k = 0) (c : Int) (hc : c ≤ 0) :
    (v1Probe true hasFW f).available = true ∧
    (v2Probe c).available = false := by
  constructor
  · have h := enumerateLoop_all_zero f 4 0 (by omega)
      (fun k _ => by simpa using hf k)
    have hE : EnumerateCountWithRetries true f 4 80 = (0, 3) := by
      simpa [EnumerateCountWithRetries] using h
    cases hasFW <;> simp [v1Probe, hE]
  · simp [v2Probe, hc]

/-- Witness for C1 (amended) with an always-zero enumerator. -/
theorem probe_zero_devices_witness :
    ((∀ k : Nat, (fun _ : Nat => (0 : Int)) k = 0) ∧ (0 : Int) ≤ 0) ∧
    ((v1Probe true true (fun _ => 0)).available = true ∧
     (v2Probe 0).available = false) :=
  ⟨⟨fun _ => rfl, le_refl 0⟩,
   probe_zero_devices true (fun _ => 0) (fun _ => rfl) 0 (le_refl 0)⟩

/-- C2 evidence: on an opened generation-1 device where every native call
succeeds except `freenect_start_depth`, start() returns failure but leaves
the video sub-stream started (it was started by ApplyVideoMode and is
never stopped), so a sub-stream remains marked active after a failed
start(). -/
theorem v1Start_depth_failure_leaves_video_started :
    (v1Start { startDepthOk := false } { devOpen := true }).1 = false ∧
    (v1Start { startDepthOk := false } { devOpen := true }).2.videoStarted = true ∧
    (v1Start { startDepthOk := false } { devOpen := true }).2.running = false :=
  ⟨rfl, rfl, rfl⟩

/-- C3 counterexample: writing a video frame and then a depth frame with
no intervening take leaves the earlier video buffer merged into the frame
observed by the next take, so the observation is not the last-written
frame alone (the same final depth write applied to an empty mailbox is
observed with an empty rgb buffer). -/
theorem mailbox_merge_counterexample :
    (mailboxGetFrame (applyWrites {}
        [WriteEv.videoEv .kRgb [1, 2, 3] 1, WriteEv.depthEv [5] 2])).1 =
      some { rgb := [1, 2, 3], depth := [5], width := 640, height := 480,
             timestamp := 2 } ∧
    (mailboxGetFrame (applyWrites {} [WriteEv.depthEv [5] 2])).1 =
      some { depth := [5], width := 640, height := 480, timestamp := 2 } ∧
    (mailboxGetFrame (applyWrites {}
        [WriteEv.videoEv .kRgb [1, 2, 3] 1, WriteEv.depthEv [5] 2])).1 ≠
      (mailboxGetFrame (applyWrites {} [WriteEv.depthEv [5] 2])).1 := by
  refine ⟨rfl, rfl, by decide⟩

/-- C3 (amended): each callback write to the mailbox replaces only the
buffer of its own sub-stream together with width, height and timestamp,
and marks the slot fresh; buffers of other sub-streams written earlier
persist in the slot, so the next take observes the per-sub-stream latest
buffers merged into one frame. -/
theorem mailbox_per_stream_latest (mb : Mailbox) (es : List WriteEv)
    (e : WriteEv) :
    applyWrites mb (es ++ [e]) = applyWrite (applyWrites mb es) e ∧
    (applyWrites mb (es ++ [e])).fresh = true ∧
    (mailboxGetFrame (applyWrites mb (es ++ [e]))).1 =
      some (applyWrites mb (es ++ [e])).frame ∧
    (∀ d ts, e = WriteEv.depthEv d ts →
      (applyWrites mb (es ++ [e])).frame.depth = d ∧
      (applyWrites mb (es ++ [e])).frame.timestamp = ts ∧
      (applyWrites mb (es ++ [e])).frame.rgb = (applyWrites mb es).frame.rgb ∧
      (applyWrites mb (es ++ [e])).frame.ir = (applyWrites mb es).frame.ir) ∧
    (∀ d ts, e = WriteEv.videoEv StreamKind.kIr d ts →
      (applyWrites mb (es ++ [e])).frame.ir = d ∧
      (applyWrites mb (es ++ [e])).frame.timestamp = ts ∧
      (applyWrites mb (es ++ [e])).frame.rgb = (applyWrites mb es).frame.rgb ∧
      (applyWrites mb (es ++ [e])).frame.depth = (applyWrites mb es).frame.depth) ∧
    (∀ a d ts, a ≠ StreamKind.kIr → e = WriteEv.videoEv a d ts →
      (applyWrites mb (es ++ [e])).frame.rgb = d ∧
      (applyWrites mb (es ++ [e])).frame.timestamp = ts ∧
      (applyWrites mb (es ++ [e])).frame.ir = (applyWrites mb es).frame.ir ∧
      (applyWrites mb (es ++ [e])).frame.depth = (applyWrites mb es).frame.depth) := by
  have hsplit : applyWrites mb (es ++ [e]) = applyWrite (applyWrites mb es) e := by
    simp [applyWrites]
  have hfresh : (applyWrite (applyWrites mb es) e).fresh = true := by
    cases e with
    | depthEv d ts => simp [applyWrite, OnDepthFrame]
    | videoEv a d ts =>
      cases a <;> simp [applyWrite, OnVideoFrame]
  refine ⟨hsplit, ?_, ?_, ?_, ?_, ?_⟩
  · rw [hsplit]; exact hfresh
  · rw [hsplit]; simp [mailboxGetFrame, hfresh]
  · rintro d ts rfl
    rw [hsplit]
    simp [applyWrite, OnDepthFrame]
  · rintro d ts rfl
    rw [hsplit]
    simp [applyWrite, OnVideoFrame]
  · rintro a d ts ha rfl
    rw [hsplit]
    simp [applyWrite, OnVideoFrame, ha]

/-- Witness for C3 (amended): the depth write after an unread video write
replaces only the depth buffer and keeps the earlier rgb buffer. -/
theorem mailbox_per_stream_latest_witness :
    (applyWrites {} ([WriteEv.videoEv .kRgb [1, 2, 3] 1] ++
        [WriteEv.depthEv [5] 2])).frame.depth = [5] ∧
    (applyWrites {} ([WriteEv.videoEv .kRgb [1, 2, 3] 1] ++
        [WriteEv.depthEv [5] 2])).frame.rgb =
      (applyWrites {} [WriteEv.videoEv .kRgb [1, 2, 3] 1]).frame.rgb :=
  ⟨((mailbox_per_stream_latest {} [WriteEv.videoEv .kRgb [1, 2, 3] 1]
      (WriteEv.depthEv [5] 2)).2.2.2.1 [5] 2 rfl).1,
   ((mailbox_per_stream_latest {} [WriteEv.videoEv .kRgb [1, 2, 3] 1]
      (WriteEv.depthEv [5] 2)).2.2.2.1 [5] 2 rfl).2.2.1⟩

/-- C9: during a polling run (a device was opened and started), both
generations report preview success exactly when the counted color frames
plus counted depth frames exceed zero, with detail "Preview captured." on
success and "No frames captured." otherwise. -/
theorem preview_success_iff_frames (devices1 devices2 : List DeviceInfo)
    (ok1 ok2 : Bool) (polls1 : List (Option FrameData))
    (polls2 : List (Bool × Option FrameData))
    (h1 : devices1 ≠ []) (h2 : ok1 = true)
    (h3 : devices2 ≠ []) (h4 : ok2 = true) :
    ((v1Preview devices1 ok1 polls1).success = true ↔
      0 < (v1Preview devices1 ok1 polls1).color_frames +
          (v1Preview devices1 ok1 polls1).depth_frames) ∧
    (v1Preview devices1 ok1 polls1).detail =
      (if (v1Preview devices1 ok1 polls1).success then "Preview captured."
       else "No frames captured.") ∧
    ((v2Preview devices2 ok2 polls2).success = true ↔
      0 < (v2Preview devices2 ok2 polls2).color_frames +
          (v2Preview devices2 ok2 polls2).depth_frames) ∧
    (v2Preview devices2 ok2 polls2).detail =
      (if (v2Preview devices2 ok2 polls2).success then "Preview captured."
       else "No frames captured.") := by
  subst h2; subst h4
  refine ⟨?_, ?_, ?_, ?_⟩ <;>
    simp [v1Preview, v2Preview, h1, h3]

/-- Witness for C9 with one successful frame carrying both buffers. -/
theorem preview_success_iff_frames_witness :
    ([({ serial := "A", name := "Kinect v1" } : DeviceInfo)] ≠ []) ∧
    ((v1Preview [{ serial := "A", name := "Kinect v1" }] true
        [some { rgb := [1], depth := [2] }]).success = true ↔
      0 < (v1Preview [{ serial := "A", name := "Kinect v1" }] true
        [some { rgb := [1], depth := [2] }]).color_frames +
          (v1Preview [{ serial := "A", name := "Kinect v1" }] true
        [some { rgb := [1], depth := [2] }]).depth_frames) :=
  ⟨by simp,
   (preview_success_iff_frames [{ serial := "A", name := "Kinect v1" }]
      [{ serial := "B", name := "Kinect v2" }] true true
      [some { rgb := [1], depth := [2] }] [(true, some { depth := [7] })]
      (by simp) rfl (by simp) rfl).1⟩

/-- Helper: a buffer passing the assignment guard carries data. -/
theorem bufReady_data_nonempty (b : V2Buf) (h : bufReady b = true) :
    b.data ≠ [] := by
  simp only [bufReady, Bool.and_eq_true, Bool.not_eq_true, decide_eq_true_eq] at h
  simpa using h.1.1

/-- Helper: a successful assignment starting from the empty next_frame
fills exactly one buffer. -/
theorem nonemptyBufCount_assignBuf (k : StreamKind) (b : V2Buf)
    (h : b.data ≠ []) :
    nonemptyBufCount (assignBuf k b {}) = 1 := by
  cases k <;> simp [assignBuf, nonemptyBufCount, h]

/-- Helper: the generation-2 update on a running device with a delivered
frame bundle refines the pick order: selected stream first, then color,
infrared, depth. -/
theorem v2Update_run (rgb depth ir : V2Buf) (st : V2DevState)
    (hrun : st.running = true) :
    v2Update true rgb depth ir st =
      (match v2Pick st.selectedStream rgb depth ir with
       | some k =>
         (true, { st with frame := assignBuf k (bufFor rgb depth ir k) {},
                          hasNewFrame := true })
       | none => (false, st)) := by
  cases hsel : st.selectedStream <;>
    by_cases h1 : bufReady rgb = true <;>
    by_cases h2 : bufReady ir = true <;>
    by_cases h3 : bufReady depth = true <;>
    simp [v2Update, v2Pick, bufFor, hrun, hsel, h1, h2, h3]

/-- C10: for the generation-2 device, a single update() on a running
device with a delivered frame bundle succeeds exactly when some stream
passes the assignment guard; the stored frame is built from exactly one
buffer — the selected stream's when usable, otherwise the first usable in
the order color, infrared, depth — and its width, height and timestamp
come from that same buffer; no usable stream leaves the device unchanged
with update() returning false. -/
theorem v2Update_single_stream_frame (waitOk : Bool) (rgb depth ir : V2Buf)
    (st : V2DevState) (hrun : st.running = true) (hwait : waitOk = true) :
    ((v2Update waitOk rgb depth ir st).1 = true ↔
      (v2Pick st.selectedStream rgb depth ir).isSome = true) ∧
    (v2Pick st.selectedStream rgb depth ir = none →
      v2Update waitOk rgb depth ir st = (false, st)) ∧
    (∀ k, v2Pick st.selectedStream rgb depth ir = some k →
      (v2Update waitOk rgb depth ir st).2.frame =
        assignBuf k (bufFor rgb depth ir k) {} ∧
      (v2Update waitOk rgb depth ir st).2.hasNewFrame = true ∧
      nonemptyBufCount ((v2Update waitOk rgb depth ir st).2.frame) = 1 ∧
      (v2Update waitOk rgb depth ir st).2.frame.width =
        (bufFor rgb depth ir k).w ∧
      (v2Update waitOk rgb depth ir st).2.frame.height =
        (bufFor rgb depth ir k).h ∧
      (v2Update waitOk rgb depth ir st).2.frame.timestamp =
        (bufFor rgb depth ir k).ts) := by
  subst hwait
  have hrw := v2Update_run rgb depth ir st hrun
  refine ⟨?_, ?_, ?_⟩
  · rw [hrw]
    cases hp : v2Pick st.selectedStream rgb depth ir <;> simp
  · intro hnone
    rw [hrw, hnone]
  · intro k hk
    have hready : bufReady (bufFor rgb depth ir k) = true := by
      cases hsel : st.selectedStream <;>
        rw [hsel] at hk <;>
        by_cases h1 : bufReady rgb = true <;>
        by_cases h2 : bufReady ir = true <;>
        by_cases h3 : bufReady depth = true <;>
        simp [v2Pick, bufFor, h1, h2, h3] at hk ⊢ <;>
        (try cases hk) <;>
        simp [bufFor, h1, h2, h3]
    have hdata := bufReady_data_nonempty _ hready
    rw [hrw, hk]
    refine ⟨rfl, rfl, nonemptyBufCount_assignBuf k (bufFor rgb depth ir k) hdata,
      ?_, ?_, ?_⟩ <;> cases k <;> simp [assignBuf]

/-- Witness for C10: a running device selecting depth with only a color
buffer available falls back to the color stream. -/
theorem v2Update_single_stream_frame_witness :
    (({ devOpen := true, running := true,
        selectedStream := .kDepth } : V2DevState).running = true) ∧
    ((v2Update true { data := [9], w := 2, h := 2, ts := 7 } {} {}
        { devOpen := true, running := true, selectedStream := .kDepth }).1 = true ↔
      (v2Pick ({ devOpen := true, running := true,
                 selectedStream := .kDepth } : V2DevState).selectedStream
        { data := [9], w := 2, h := 2, ts := 7 } {} {}).isSome = true) :=
  ⟨rfl,
   (v2Update_single_stream_frame true { data := [9], w := 2, h := 2, ts := 7 }
      {} {} { devOpen := true, running := true, selectedStream := .kDepth }
      rfl rfl).1⟩

/-- Helper: one unfolding of the outer openDevice retry loop. -/
theorem v1OpenDeviceGo_succ (env : V1OpenEnv) (s : String) (n : Nat) :
    v1OpenDeviceGo env s (n + 1) =
      (match v1OpenDeviceAttempt env s with
       | some u => some u
       | none => v1OpenDeviceGo env s n) := rfl

/-- C5 counterexample: with a real (non-empty, non-positional) serial
"S1" whose exact-serial open always fails, one attached device at index 0
listed with the different serial "S2", and a positional open that succeeds
at index 0, openDevice("S1") succeeds by opening the device at enumeration
position 0 — a positional fallback the claim says must not happen for a
real serial. -/
theorem openDevice_positional_fallback_cx :
    IsSyntheticIndexSerial "S1" = false ∧ "S1" ≠ "" ∧
    v1OpenDevice { openBySerial := fun _ => false, openByIndex := fun i => i == 0,
                   numDevices := 1, attrs := [some "S2"] } true "S1" =
      some (OpenedUnit.byIndex 0) :=
  ⟨rfl, by decide, by rfl⟩

/-- C5 (amended): for a real serial the exact-serial open is attempted
first and wins when it succeeds; but when the exact-serial open fails,
openDevice falls back to positional candidates even though the identifier
is a real serial, and can return the unit at an enumeration position whose
listed serial differs from the requested one. -/
theorem openDevice_serial_then_positional (s t : String) (hs1 : s ≠ "")
    (hs2 : IsSyntheticIndexSerial s = false) (hts : t ≠ s)
    (obi : Nat → Bool) (nd : Int) (attrs : List (Option String)) :
    v1OpenDevice { openBySerial := fun x => x == s, openByIndex := obi,
                   numDevices := nd, attrs := attrs } true s =
      some (OpenedUnit.bySerial s) ∧
    v1OpenDevice { openBySerial := fun _ => false, openByIndex := fun i => i == 0,
                   numDevices := 1, attrs := [some t] } true s =
      some (OpenedUnit.byIndex 0) := by
  constructor
  · have hA : v1OpenDeviceAttempt
        { openBySerial := fun x => x == s, openByIndex := obi,
          numDevices := nd, attrs := attrs } s =
          some (OpenedUnit.bySerial s) := by
      simp [v1OpenDeviceAttempt, v1DeviceOpen, hs1, hs2]
    rw [v1OpenDevice, show (6 : Nat) = 5 + 1 from rfl]
    simp [v1OpenDeviceGo_succ, hA]
  · have hA : v1OpenDeviceAttempt
        { openBySerial := fun _ => false, openByIndex := fun i => i == 0,
          numDevices := 1, attrs := [some t] } s =
          some (OpenedUnit.byIndex 0) := by
      have hlist : v1ListDevices true (fun _ => [some t]) (fun _ => 1) =
          ([{ serial := t, name := "Kinect v1" }], 0) := by
        rw [v1ListDevices, show (4 : Nat) = 3 + 1 from rfl, listDevicesLoop.eq_def]
        simp [buildDeviceInfos]
      simp [v1OpenDeviceAttempt, v1DeviceOpen, hs1, hs2, hlist,
        List.findIdx?_cons, List.findIdx?_nil, hts, EnumerateCountWithRetries,
        enumerateLoop, List.findSome?_cons, show List.range 1 = [0] from rfl]
    rw [v1OpenDevice, show (6 : Nat) = 5 + 1 from rfl]
    simp [v1OpenDeviceGo_succ, hA]

/-- Witness for C5 (amended) at the serials "S1" and "S2". -/
theorem openDevice_serial_then_positional_witness :
    (("S1" : String) ≠ "" ∧ IsSyntheticIndexSerial "S1" = false ∧
     ("S2" : String) ≠ "S1") ∧
    v1OpenDevice { openBySerial := fun x => x == "S1",
                   openByIndex := fun _ => false,
                   numDevices := 0, attrs := [] } true "S1" =
      some (OpenedUnit.bySerial "S1") :=
  ⟨⟨by decide, rfl, by decide⟩,
   (openDevice_serial_then_positional "S1" "S2" (by decide) rfl (by decide)
      (fun _ => false) 0 []).1⟩

/-- Helper: filtering distributes over flatMap. -/
theorem filter_flatMap {α β : Type} (l : List α) (f : α → List β) (p : β → Bool) :
    (l.flatMap fun a => (f a).filter p) = (l.flatMap f).filter p := by
  induction l with
  | nil => simp
  | cons a t ih => simp [List.flatMap_cons, List.filter_append, ih]

/-- Helper: the row-major double loop visits exactly the flat indices. -/
theorem flatMap_range_map_add (w : Nat) :
    ∀ h : Nat,
      ((List.range h).flatMap fun y => (List.range w).map fun x => y * w + x) =
        List.range (h * w) := by
  intro h
  induction h with
  | zero => simp
  | succ n ih =>
    rw [List.range_succ, List.flatMap_append, ih, Nat.succ_mul, List.range_add]
    simp

/-- Helper: the indices of the points kept by a guarded filterMap are the
filtered indices. -/
theorem map_idx_filterMap_guard (c : Nat → Bool) (e : Nat → Nat)
    (g : Nat → PlyPoint) (hidx : ∀ x, (g x).idx = e x) :
    ∀ l : List Nat,
      ((l.filterMap fun x => if c (e x) then none else some (g x)).map PlyPoint.idx) =
        (l.map e).filter fun i => !c i := by
  intro l
  induction l with
  | nil => rfl
  | cons a t ih =>
    rw [List.filterMap_cons]
    by_cases h : c (e a) = true
    · simp [h, ih]
    · have h' : c (e a) = false := by simpa using h
      simp [h', ih, hidx]

/-- Helper: filtering a list by value matches filtering its index range by
the value found at each index. -/
theorem length_filter_range_getD (p : Nat → Bool) :
    ∀ l : List Nat,
      (l.filter p).length =
        ((List.range l.length).filter fun i => p (l.getD i 0)).length := by
  intro l
  induction l with
  | nil => rfl
  | cons a t ih =>
    have hcomp : ((fun i => p ((a :: t).getD i 0)) ∘ Nat.succ) =
        fun i => p (t.getD i 0) := by
      funext i
      simp [Function.comp]
    by_cases h : p a = true
    · simp only [List.length_cons, List.range_succ_eq_map, List.filter_cons,
        List.getD_cons_zero, h, List.filter_map, List.length_map, ih]
      rw [hcomp]
      simp only [List.getD] at ih
      simpa using ih
    · have h' : p a = false := by simpa using h
      simp only [List.length_cons, List.range_succ_eq_map, List.filter_cons,
        List.getD_cons_zero, h', List.filter_map, List.length_map, ih]
      rw [hcomp]
      simp only [List.getD] at ih
      simpa using ih

set_option maxRecDepth 4000 in
/-- Helper: the emitted point indices are exactly the flat indices whose
depth sample lies inside the valid range. -/
theorem plyPoints_map_idx (world : Nat → Nat → Nat → Int × Int)
    (depth rgb : List Nat) :
    (plyPoints world depth rgb).map PlyPoint.idx =
      (List.range (kFrameHeight * kFrameWidth)).filter
        fun i => !(depth.getD i 0 < 350 || 6000 < depth.getD i 0) := by
  have hstep : (plyPoints world depth rgb).map PlyPoint.idx =
      (List.range kFrameHeight).flatMap fun y =>
        (((List.range kFrameWidth).map fun x => y * kFrameWidth + x).filter
          fun i => !(depth.getD i 0 < 350 || 6000 < depth.getD i 0)) := by
    rw [plyPoints, List.map_flatMap]
    congr 1
    funext y
    exact map_idx_filterMap_guard
      (fun i => depth.getD i 0 < 350 || 6000 < depth.getD i 0)
      (fun x => y * kFrameWidth + x)
      (fun x =>
        { idx := y * kFrameWidth + x,
          wx := (world x y (depth.getD (y * kFrameWidth + x) 0)).1,
          wy := (world x y (depth.getD (y * kFrameWidth + x) 0)).2,
          d := depth.getD (y * kFrameWidth + x) 0,
          r := rgb.getD ((y * kFrameWidth + x) * 3) 0,
          g := rgb.getD ((y * kFrameWidth + x) * 3 + 1) 0,
          b := rgb.getD ((y * kFrameWidth + x) * 3 + 2) 0 })
      (fun x => rfl) (List.range kFrameWidth)
  rw [hstep, filter_flatMap, flatMap_range_map_add]

set_option maxRecDepth 8000 in
/-- C6: the point-list export emits exactly one line per depth sample whose
value lies in [350, 6000] and none for any other sample (the emitted index
list is exactly the filtered index range, so a sample of 0 mm at index 100
yields no line and a sample of 5000 mm at index 101 yields exactly one),
and the header vertex count equals the number of emitted lines. -/
theorem savePly_one_line_per_valid_sample (world : Nat → Nat → Nat → Int × Int)
    (depth rgb : List Nat) (h : depth.length = kFramePixels) :
    (plyPoints world depth rgb).map PlyPoint.idx =
      ((List.range kFramePixels).filter
        fun i => decide (350 ≤ depth.getD i 0) && decide (depth.getD i 0 ≤ 6000)) ∧
    (SavePointCloudPly world depth rgb).1 = (plyPoints world depth rgb).length ∧
    (depth.getD 100 0 = 0 →
      List.count 100 ((plyPoints world depth rgb).map PlyPoint.idx) = 0) ∧
    (depth.getD 101 0 = 5000 →
      List.count 101 ((plyPoints world depth rgb).map PlyPoint.idx) = 1) := by
  have hNW : kFrameHeight * kFrameWidth = kFramePixels := by
    norm_num [kFramePixels, kFrameWidth, kFrameHeight]
  have hA : (plyPoints world depth rgb).map PlyPoint.idx =
      ((List.range kFramePixels).filter
        fun i => decide (350 ≤ depth.getD i 0) && decide (depth.getD i 0 ≤ 6000)) := by
    rw [plyPoints_map_idx, hNW]
    apply List.filter_congr
    intro i _
    generalize depth.getD i 0 = d
    by_cases h1 : d < 350 <;> by_cases h2 : 6000 < d
    all_goals simp [h1, h2]
    all_goals omega
  refine ⟨hA, ?_, ?_, ?_⟩
  · have hcount : (SavePointCloudPly world depth rgb).1 =
        (depth.filter fun d => decide (350 ≤ d) && decide (d ≤ 6000)).length := rfl
    rw [hcount, length_filter_range_getD, h]
    rw [show ((List.range kFramePixels).filter fun i =>
        (fun d => decide (350 ≤ d) && decide (d ≤ 6000)) (depth.getD i 0)) =
      ((List.range kFramePixels).filter
        fun i => decide (350 ≤ depth.getD i 0) && decide (depth.getD i 0 ≤ 6000)) from rfl]
    rw [← hA, List.length_map]
  · intro h100
    rw [hA]
    rw [List.count_eq_zero]
    intro hmem
    rw [List.mem_filter] at hmem
    rw [h100] at hmem
    simp at hmem
  · intro h101
    rw [hA]
    apply List.count_eq_one_of_mem
    · exact List.Nodup.filter _ (List.nodup_range _)
    · rw [List.mem_filter, List.mem_range]
      refine ⟨?_, ?_⟩
      · norm_num [kFramePixels, kFrameWidth, kFrameHeight]
      · rw [h101]
        decide

/-- Witness for C6 on an all-zero depth buffer of the frame size. -/
theorem savePly_witness :
    (List.replicate kFramePixels 0).length = kFramePixels ∧
    (SavePointCloudPly (fun _ _ _ => (0, 0)) (List.replicate kFramePixels 0) []).1 =
      (plyPoints (fun _ _ _ => (0, 0)) (List.replicate kFramePixels 0) []).length :=
  ⟨by simp,
   (savePly_one_line_per_valid_sample (fun _ _ _ => (0, 0))
      (List.replicate kFramePixels 0) [] (by simp)).2.1⟩


/-- Helper: after the eviction loop the queue holds strictly fewer than
`kQueueCapacity` entries unless it was already below capacity. -/
theorem evictWhileFull_spec (q : List α) (h : q.length ≤ kQueueCapacity) :
    evictWhileFull q =
      (if q.length = kQueueCapacity then (q.tail, 1) else (q, 0)) := by
  match q with
  | [] => simp [evictWhileFull, kQueueCapacity]
  | x :: xs =>
    rw [evictWhileFull]
    by_cases hfull : (x :: xs).length = kQueueCapacity
    · have hle : kQueueCapacity ≤ (x :: xs).length := le_of_eq hfull.symm
      have hxs : xs.length < kQueueCapacity := by
        simpa [List.length_cons, Nat.lt_succ_iff] using le_of_eq hfull
      have hxs2 : xs.length ≠ kQueueCapacity := Nat.ne_of_lt hxs
      have hrec := evictWhileFull_spec xs (le_of_lt hxs)
      simp [hle, hrec, hxs2, hfull]
    · have hlt : (x :: xs).length < kQueueCapacity := lt_of_le_of_ne h hfull
      have hnle : ¬ kQueueCapacity ≤ (x :: xs).length := not_le_of_lt hlt
      simp only [List.length_cons] at hnle hfull
      simp [hnle, hfull]

/-- C8: the frame-distribution queue never exceeds its capacity of 8: a push
into a queue at capacity first evicts exactly the oldest entry (one eviction),
a push into a queue below capacity evicts nothing, and after every push the
queue length is at most the capacity; the producer never blocks (push is a
total function). -/
theorem frameQueue_push_drop_oldest (q : List Nat) (sample : Nat)
    (h : q.length ≤ kQueueCapacity) :
    (queuePush q sample).1.length ≤ kQueueCapacity ∧
    queuePush q sample =
      (if q.length = kQueueCapacity then (q.tail ++ [sample], 1)
       else (q ++ [sample], 0)) := by
  have hspec := evictWhileFull_spec q h
  by_cases hfull : q.length = kQueueCapacity
  · have hq : q ≠ [] := by
      intro hnil
      rw [hnil] at hfull
      simp [kQueueCapacity] at hfull
    have htail : q.tail.length = kQueueCapacity - 1 := by
      rw [List.length_tail, hfull]
    constructor
    · simp only [queuePush, hspec, hfull, if_pos]
      simp [htail, kQueueCapacity]
    · simp [queuePush, hspec, hfull]
  · have hlt : q.length < kQueueCapacity := lt_of_le_of_ne h hfull
    constructor
    · simp only [queuePush, hspec, hfull, if_neg, ite_false]
      simpa using hlt
    · simp [queuePush, hspec, hfull]

/-- Witness for C8 at a queue holding exactly 8 entries. -/
theorem frameQueue_push_drop_oldest_witness :
    (List.range 8).length ≤ kQueueCapacity ∧
    ((queuePush (List.range 8) 99).1.length ≤ kQueueCapacity ∧
     queuePush (List.range 8) 99 =
       (if (List.range 8).length = kQueueCapacity
        then ((List.range 8).tail ++ [99], 1)
        else (List.range 8 ++ [99], 0))) :=
  ⟨by decide, frameQueue_push_drop_oldest (List.range 8) 99 (by decide)⟩

/-- C7: stop() is idempotent on both device generations: starting from a
state where the started-sub-stream flags only hold while streaming, one
stop() call leaves streaming == false with every sub-stream inactive, a
second stop() call returns success, changes nothing and issues no native
calls, and the first call tears down the active sub-streams in the order
audio, then video, then depth. -/
theorem stop_idempotent_and_ordered (st1 : V1DevState) (st2 : V2DevState)
    (h1 : st1.devOpen = true) (h2 : st2.devOpen = true)
    (hv : st1.videoStarted = true → st1.running = true)
    (ha : st1.audioStarted = true → st1.running = true)
    (hd : st1.depthStarted = true → st1.running = true) :
    ((v1Stop st1).2.1.running = false ∧
     (v1Stop st1).2.1.audioStarted = false ∧
     (v1Stop st1).2.1.videoStarted = false ∧
     (v1Stop st1).2.1.depthStarted = false ∧
     (v1Stop (v1Stop st1).2.1).1 = true ∧
     (v1Stop (v1Stop st1).2.1).2.1 = (v1Stop st1).2.1 ∧
     (v1Stop (v1Stop st1).2.1).2.2 = [] ∧
     (st1.running = true →
       (v1Stop st1).2.2 =
         (if st1.audioStarted then [NativeCall.stopAudio] else []) ++
         (if st1.videoStarted then [NativeCall.stopVideo] else []) ++
         (if st1.depthStarted then [NativeCall.stopDepth] else []))) ∧
    ((v2Stop st2).2.1.running = false ∧
     (v2Stop (v2Stop st2).2.1).1 = true ∧
     (v2Stop (v2Stop st2).2.1).2.1 = (v2Stop st2).2.1 ∧
     (v2Stop (v2Stop st2).2.1).2.2 = false) := by
  constructor
  · by_cases hr : st1.running = true
    · simp [v1Stop, h1, hr]
    · have hr' : st1.running = false := by
        cases hrr : st1.running
        · rfl
        · exact absurd hrr hr
      have hv' : st1.videoStarted = false := by
        cases hvv : st1.videoStarted
        · rfl
        · exact absurd (hv hvv) hr
      have ha' : st1.audioStarted = false := by
        cases haa : st1.audioStarted
        · rfl
        · exact absurd (ha haa) hr
      have hd' : st1.depthStarted = false := by
        cases hdd : st1.depthStarted
        · rfl
        · exact absurd (hd hdd) hr
      simp [v1Stop, h1, hr', hv', ha', hd']
  · by_cases hr : st2.running = true
    · simp [v2Stop, h2, hr]
    · have hr' : st2.running = false := by
        cases hrr : st2.running
        · rfl
        · exact absurd hrr hr
      simp [v2Stop, h2, hr']

/-- Witness for C7 on a fully streaming generation-1 device and a running
generation-2 device. -/
theorem stop_idempotent_and_ordered_witness :
    (({ devOpen := true, running := true, depthStarted := true,
        videoStarted := true, audioStarted := true,
        audioSupported := true } : V1DevState).devOpen = true) ∧
    (({ devOpen := true, running := true } : V2DevState).devOpen = true) ∧
    (((v1Stop { devOpen := true, running := true, depthStarted := true,
                videoStarted := true, audioStarted := true,
                audioSupported := true }).2.1.running = false) ∧
     True) :=
  ⟨rfl, rfl,
   (stop_idempotent_and_ordered
      { devOpen := true, running := true, depthStarted := true,
        videoStarted := true, audioStarted := true, audioSupported := true }
      { devOpen := true, running := true }
      rfl rfl (fun _ => rfl) (fun _ => rfl) (fun _ => rfl)).1.1,
   trivial⟩

end MacKinect
